import Mathlib

/-!
Shallow embedding of `src/lake.py`, a single-file batch data-enrichment
pipeline: it fetches provider-location records from an OAuth-protected
source, geocodes their postal addresses, fetches census statistics for
Michigan (state FIPS 26), joins census rows to county/place names via a
static FIPS table, and writes two timestamped output files.

External effects (HTTP responses, the wall clock, the static FIPS table
imported from `mi_fips_data`, credentials) are modelled as oracle inputs
packaged in a `World` structure; `process_data` returns the trace of
external actions it performs together with its outcome.  Numeric
latitude/longitude values are only passed through by the code, never
computed with, so they are represented by `Rat`.
-/

namespace Lake2

/-- Python whitespace characters recognised by `str.strip()` (ASCII range). -/
def isPySpace (c : Char) : Bool :=
  c = ' ' ∨ c = '\t' ∨ c = '\n' ∨ c = '\r' ∨ c = Char.ofNat 11 ∨ c = Char.ofNat 12

/-- `str.strip()`: drop leading and trailing whitespace. -/
def pyStrip (s : String) : String :=
  ⟨((s.toList.dropWhile isPySpace).reverse.dropWhile isPySpace).reverse⟩

/-- Collapse every run of space characters to a single space,
    as `re.sub(' +', ' ', s)` does. -/
def collapseSpaces : List Char → List Char
  | [] => []
  | [c] => [c]
  | a :: b :: rest =>
    if a = ' ' ∧ b = ' ' then collapseSpaces (b :: rest)
    else a :: collapseSpaces (b :: rest)

/-- `clean_address` from lake.py: `re.sub(' +', ' ', address.strip())`. -/
def clean_address (address : String) : String :=
  ⟨collapseSpaces (pyStrip address).toList⟩

/-- Digit-run parser for `pyInt?`: a nonempty decimal digit sequence in which
    single underscores may separate digits (Python's `int` literal grouping). -/
def parseDigitsGo (acc : Nat) : List Char → Option Nat
  | [] => some acc
  | '_' :: c :: cs =>
    if c.isDigit then parseDigitsGo (acc * 10 + (c.toNat - 48)) cs else none
  | ['_'] => none
  | c :: cs =>
    if c.isDigit then parseDigitsGo (acc * 10 + (c.toNat - 48)) cs else none

/-- Parse a nonempty digit sequence (with underscore grouping) to its value. -/
def parseDigits : List Char → Option Nat
  | [] => none
  | c :: cs => if c.isDigit then parseDigitsGo (c.toNat - 48) cs else none

/-- Python's `int(s)` on a string: strip whitespace, optional sign, decimal
    digits with optional underscore grouping; `none` models `ValueError`. -/
def pyInt? (s : String) : Option Int :=
  match (pyStrip s).toList with
  | '+' :: cs => (parseDigits cs).map Int.ofNat
  | '-' :: cs => (parseDigits cs).map (fun n => -(n : Int))
  | cs => (parseDigits cs).map Int.ofNat

/-- `STATE_FIPS = '26'  # Michigan`. -/
def STATE_FIPS : String := "26"

/-- One record of the static FIPS lookup table imported from `mi_fips_data`
    (an external collaborator); field names follow the dict keys used by
    lake.py. -/
structure FipsEntry where
  State : String
  County_Code : String
  County_Name : String
  Place_Code : String
  Place_Name : String
  deriving DecidableEq, Repr

/-- `get_county_name_from_fips`: linear scan of the FIPS table, returning the
    county name of the first entry matching state and county code, with
    a default when none matches. -/
def get_county_name_from_fips (state_fips county_fips : String) :
    List FipsEntry → String
  | [] => "Unknown County"
  | e :: rest =>
    if e.State = state_fips ∧ e.County_Code = county_fips then e.County_Name
    else get_county_name_from_fips state_fips county_fips rest

/-- `get_place_name_from_fips`: linear scan of the FIPS table, returning the
    place name of the first entry matching state and place code, with
    a default when none matches. -/
def get_place_name_from_fips (state_fips place_fips : String) :
    List FipsEntry → String
  | [] => "Unknown City/Town"
  | e :: rest =>
    if e.State = state_fips ∧ e.Place_Code = place_fips then e.Place_Name
    else get_place_name_from_fips state_fips place_fips rest

/-- One `int(data[i])` term of the age-group sums: `none` models the
    `IndexError` of an out-of-range access or the `ValueError` of a
    non-integer field. -/
def cell? (data : List String) (i : Nat) : Option Int :=
  data[i]?.bind pyInt?

/-- The eight `int(data[i])` values summed by `process_census_data_with_names`
    (`i` in `range(8)`), all of which must succeed for the `try` block to
    reach the FIPS lookups. -/
def cells8? (data : List String) :
    Option (Int × Int × Int × Int × Int × Int × Int × Int) :=
  (cell? data 0).bind fun a => (cell? data 1).bind fun b =>
  (cell? data 2).bind fun c => (cell? data 3).bind fun d =>
  (cell? data 4).bind fun e => (cell? data 5).bind fun f =>
  (cell? data 6).bind fun g => (cell? data 7).bind fun h =>
  some (a, b, c, d, e, f, g, h)

/-- `process_census_data_with_names`: sum the first eight fields as the three
    age-group counts, look up county (`data[-2]`) and place (`data[-1]`) names
    (once the eight accesses succeeded the row has at least 8 fields, so the
    negative indices resolve to `data.length - 2` and `data.length - 1`), and
    on `ValueError`/`IndexError` return the defaults from the `except`
    handler. -/
def process_census_data_with_names (data : List String) (fips : List FipsEntry) :
    String × String × Int × Int × Int :=
  match cells8? data with
  | some (a, b, c, d, e, f, g, h) =>
    let county_fips := data.getD (data.length - 2) ""
    let place_fips := data.getD (data.length - 1) ""
    (get_county_name_from_fips STATE_FIPS county_fips fips,
     get_place_name_from_fips STATE_FIPS place_fips fips,
     a + b, c + d, e + f + g + h)
  | none => ("Unknown County", "Unknown City/Town", 0, 0, 0)

/-- A single result of the geocoding API: `results[k]['geometry']['location']`,
    carrying its `lat` and `lng` values (pass-through decimals). -/
structure GeoLoc where
  lat : Rat
  lng : Rat
  deriving DecidableEq, Repr

/-- Parsed JSON body of a geocoding response: its `status` string and its
    `results` array. -/
structure GeoBody where
  status : String
  results : List GeoLoc
  deriving DecidableEq, Repr

/-- Outcome of one HTTP attempt inside `geocode_address`: either a
    `requests.RequestException` (connection error or undecodable JSON body),
    or a response with its status code and parsed body. -/
inductive GeoAttempt where
  | exn (msg : String)
  | resp (status_code : Nat) (body : GeoBody)
  deriving DecidableEq, Repr

/-- An attempt fails when it raises, returns a non-200 code, has a geocoder
    status other than `OK`, or has an empty `results` array. -/
def attemptFails : GeoAttempt → Bool
  | .exn _ => true
  | .resp status_code body =>
    !(status_code == 200 && body.status == "OK" && !body.results.isEmpty)

/-- Body of the `for _ in range(3)` loop of `geocode_address`, run over the
    list of attempt outcomes the network will deliver; returns the
    `(Latitude, Longitude)` pair together with the console lines printed.
    Falling off the list models falling out of the loop to `return None, None`. -/
def geocodeRun (address : String) : List GeoAttempt → (Option Rat × Option Rat) × List String
  | [] => ((none, none), [])
  | .exn msg :: rest =>
    let r := geocodeRun address rest
    (r.1, ("Error geocoding address '" ++ address ++ "': " ++ msg) :: r.2)
  | .resp status_code body :: rest =>
    if status_code = 200 then
      match body.results with
      | loc :: _ =>
        if body.status = "OK" then
          ((some loc.lat, some loc.lng),
           ["Geocoded " ++ address ++ " -> " ++ toString loc.lat ++ ", " ++ toString loc.lng])
        else
          let r := geocodeRun address rest
          (r.1, ("Failed to geocode " ++ address ++ ": " ++ body.status) :: r.2)
      | [] =>
        let r := geocodeRun address rest
        (r.1, ("Failed to geocode " ++ address ++ ": " ++ body.status) :: r.2)
    else
      let r := geocodeRun address rest
      (r.1, ("Failed to geocode " ++ address ++ ": HTTP " ++ toString status_code) :: r.2)

/-- `geocode_address`: retry the request up to 3 times (the oracle `att` gives
    the outcome of each attempt), returning the first success's coordinates or
    `(None, None)` after three failures. -/
def geocode_address (address : String) (att : Nat → GeoAttempt) :
    (Option Rat × Option Rat) × List String :=
  geocodeRun address [att 0, att 1, att 2]

/-- `geocode_addresses_concurrently`: `executor.map` over the `Full Address`
    column.  `ThreadPoolExecutor.map` is documented to yield results in the
    order of its inputs, so it is modelled as an ordered map; `geo a` is the
    attempt oracle for the address at index `a`. -/
def geocode_addresses_concurrently (addrs : List String)
    (geo : Nat → Nat → GeoAttempt) : List ((Option Rat × Option Rat) × List String) :=
  addrs.enum.map fun p => geocode_address p.2 (geo p.1)

/-- The `variables` dict of age-group census variables, in insertion order. -/
def censusVariables : List (String × String) :=
  [("0-3", "B01001_003E,B01001_027E"),
   ("3-5", "B01001_004E,B01001_028E"),
   ("6-11", "B01001_005E,B01001_006E,B01001_029E,B01001_030E")]

/-- Query parameters of the census request built by `fetch_census_data`
    (the API key, a credential, is elided).  `getVars`, `forClause` and
    `inClause` are the `get`, `for` and `in` parameters. -/
structure CensusParams where
  getVars : String
  forClause : String
  inClause : String
  deriving DecidableEq, Repr

/-- The parameter dict of `fetch_census_data`:
    `','.join(variables.values())`, `county:*`, and `state:{state_fips}`. -/
def censusRequestParams (state_fips : String) : CensusParams :=
  { getVars := String.intercalate "," (censusVariables.map Prod.snd)
    forClause := "county:*"
    inClause := "state:" ++ state_fips }

/-- The census HTTP response: status code, parsed JSON rows (`none` models an
    undecodable body, `requests.exceptions.JSONDecodeError`), and the raw text
    used in the decode-error log line. -/
structure CensusResponse where
  status_code : Nat
  body : Option (List (List String))
  text : String
  deriving Repr

/-- `fetch_census_data`: on a 200 response with decodable JSON return the rows
    with the header row removed (`data[1:]`), otherwise log and return `None`.
    The second component is the console output (the success-path preview line
    prints `data[:5]`, rendered here with Lean's `toString`). -/
def fetch_census_data (state_fips : String) (resp : CensusResponse) :
    Option (List (List String)) × List String :=
  let fetching := "Fetching data for all counties in state " ++ state_fips ++ "..."
  if resp.status_code = 200 then
    match resp.body with
    | some data =>
      (some (data.drop 1),
       [fetching, "Received data for all counties: " ++ toString (data.take 5) ++ "..."])
    | none => (none, [fetching, "Error decoding JSON: " ++ resp.text])
  else
    (none, [fetching, "Error: Received status code " ++ toString resp.status_code])

/-- A provider record from the remote data source: an ordered association
    list of column name to value, as one JSON object of `data['value']`. -/
abbrev Row := List (String × String)

/-- The oracle inputs of one run of `process_data`: the provider records a
    successful OAuth-protected fetch returns, the geocoding network (`geo a i`
    is attempt `i` for the address at index `a`), the census response, the
    static FIPS table, and the `strftime` timestamp. -/
structure World where
  providers : List Row
  geo : Nat → Nat → GeoAttempt
  census : CensusResponse
  fips : List FipsEntry
  timestamp : String

/-- External actions `process_data` performs, in order. -/
inductive Event where
  | fetchToken
  | fetchProviders
  | geocodeCall (address : String)
  | censusFetch (state_fips : String) (params : CensusParams)
  | writeFile (name : String)
  deriving DecidableEq, Repr

/-- The exception `process_data` raises itself: `ValueError` naming the
    missing required columns. -/
inductive PyErr where
  | valueError (missing : List String)
  deriving DecidableEq, Repr

/-- One row of the provider output file: the original record plus the
    `Full Address`, `Latitude` and `Longitude` columns. -/
structure ProvOut where
  row : Row
  fullAddress : String
  latitude : Option Rat
  longitude : Option Rat
  deriving DecidableEq, Repr

/-- One record of the census output file, as appended to `census_results`. -/
structure CensusRec where
  county : String
  city : String
  children_0_3 : Int
  children_3_5 : Int
  children_6_11 : Int
  deriving DecidableEq, Repr

/-- Content of an output file. -/
inductive FileContent where
  | providers (rows : List ProvOut)
  | census (rows : List CensusRec)
  deriving DecidableEq, Repr

/-- An output file written by `df.to_csv`. -/
structure OutFile where
  name : String
  content : FileContent
  deriving DecidableEq, Repr

/-- Column value of a record; a key absent from a record renders as pandas
    `NaN`, which the address f-string formats as `"nan"`. -/
def lookupCol (r : Row) (c : String) : String :=
  match r.find? (fun p => p.1 = c) with
  | some p => p.2
  | none => "nan"

/-- Keep the first occurrence of each element. -/
def dedupKeepFirst : List String → List String
  | [] => []
  | x :: xs => x :: (dedupKeepFirst xs).filter (fun y => y ≠ x)

/-- The DataFrame's columns: every key occurring in the records, in order of
    first appearance (pandas' column inference from a list of dicts). -/
def dfColumns (records : List Row) : List String :=
  dedupKeepFirst ((records.map (fun r => r.map Prod.fst)).flatten)

/-- `required_columns = {'AddressLine1', 'City', 'ZipCode'}`. -/
def required_columns : List String := ["AddressLine1", "City", "ZipCode"]

/-- `required_columns.issubset(df.columns)`. -/
def colsOK (w : World) : Bool :=
  required_columns.all fun c => (dfColumns w.providers).contains c

/-- The `Full Address` column of one record:
    `f"{row['AddressLine1']}, {row['City']}, Michigan {row['ZipCode']}"`
    passed through `clean_address`. -/
def full_address (r : Row) : String :=
  clean_address (lookupCol r "AddressLine1" ++ ", " ++ lookupCol r "City" ++
    ", Michigan " ++ lookupCol r "ZipCode")

/-- The `Full Address` column of the DataFrame. -/
def addresses (w : World) : List String := w.providers.map full_address

/-- The `geocode_results` list: coordinate pairs, logs dropped. -/
def geoResults (w : World) : List (Option Rat × Option Rat) :=
  (geocode_addresses_concurrently (addresses w) w.geo).map Prod.fst

/-- `df['Latitude']` after `zip(*geocode_results)`. -/
def latitudes (w : World) : List (Option Rat) := (geoResults w).map Prod.fst

/-- `df['Longitude']` after `zip(*geocode_results)`. -/
def longitudes (w : World) : List (Option Rat) := (geoResults w).map Prod.snd

/-- The rows of the provider output file: each record with its `Full Address`,
    `Latitude` and `Longitude` columns attached positionally. -/
def providerRows (w : World) : List ProvOut :=
  ((w.providers.zip (addresses w)).zip ((latitudes w).zip (longitudes w))).map
    fun p => ⟨p.1.1, p.1.2, p.2.1, p.2.2⟩

/-- The `census_results` list: each fetched census row processed through
    `process_census_data_with_names` into a record (`if census_data:` skips
    the loop when the fetch returned `None`, leaving the list empty). -/
def censusRecords (w : World) : List CensusRec :=
  match (fetch_census_data STATE_FIPS w.census).1 with
  | some rows =>
    rows.map fun row =>
      match process_census_data_with_names row w.fips with
      | (county, city, c03, c35, c611) => ⟨county, city, c03, c35, c611⟩
  | none => []

/-- Name of the provider output file. -/
def provFileName (w : World) : String :=
  "processed_providers_" ++ w.timestamp ++ ".csv"

/-- Name of the census output file. -/
def censFileName (w : World) : String :=
  "processed_census_" ++ w.timestamp ++ ".csv"

/-- `process_data`: acquire a token, fetch provider records, check the
    required columns (raising `ValueError` when they are missing), geocode
    every full address, fetch and process the census data, and write the two
    timestamped output files.  Returns the ordered trace of external actions
    together with the outcome (the raised error, or the files written). -/
def process_data (w : World) : List Event × Except PyErr (List OutFile) :=
  let cols := dfColumns w.providers
  if required_columns.all (fun c => cols.contains c) then
    ([Event.fetchToken, Event.fetchProviders] ++
       (addresses w).map Event.geocodeCall ++
       [Event.censusFetch STATE_FIPS (censusRequestParams STATE_FIPS),
        Event.writeFile (provFileName w), Event.writeFile (censFileName w)],
     Except.ok
       [⟨provFileName w, FileContent.providers (providerRows w)⟩,
        ⟨censFileName w, FileContent.census (censusRecords w)⟩])
  else
    ([Event.fetchToken, Event.fetchProviders],
     Except.error (PyErr.valueError
       (required_columns.filter fun c => ¬ cols.contains c)))

/-! ### Concrete worlds used by the witnesses -/

/-- A run in which everything external succeeds except geocoding attempts. -/
def w0 : World :=
  { providers := [[("AddressLine1", "1  Main St"), ("City", "Flint"), ("ZipCode", "48502")]]
    geo := fun _ _ => GeoAttempt.exn "connection reset"
    census := { status_code := 200
                body := some [["B01001_003E", "B01001_027E", "B01001_004E", "B01001_028E",
                               "B01001_005E", "B01001_006E", "B01001_029E", "B01001_030E",
                               "county", "place"],
                              ["1", "2", "3", "4", "5", "6", "7", "8", "049", "29000"]]
                text := "" }
    fips := [⟨"26", "049", "Genesee County", "29000", "Flint city"⟩]
    timestamp := "20251012_120000" }

/-- A run whose provider records lack the `City` and `ZipCode` columns. -/
def wBad : World :=
  { providers := [[("AddressLine1", "1 Main St")]]
    geo := fun _ _ => GeoAttempt.exn "unused"
    census := { status_code := 200, body := some [], text := "" }
    fips := []
    timestamp := "20251012_120000" }

/-- A run whose census fetch returns HTTP 500. -/
def wCens : World :=
  { providers := [[("AddressLine1", "1 Main St"), ("City", "Flint"), ("ZipCode", "48502")]]
    geo := fun _ _ => GeoAttempt.resp 200 ⟨"OK", [⟨43, -83⟩]⟩
    census := { status_code := 500, body := none, text := "server error" }
    fips := []
    timestamp := "20251012_130000" }

/-! ### Theorems -/

/-- The required-columns check holds exactly when every required column occurs
    among the DataFrame's columns. -/
theorem colsOK_iff (w : World) :
    colsOK w = true ↔ ∀ c ∈ required_columns, c ∈ dfColumns w.providers := by
  simp [colsOK]

/-- C1: on a run whose provider records carry the required columns,
    `process_data` performs the stages in order: the OAuth-protected provider
    fetch, one geocoding call per provider record's full postal address (whose
    latitude/longitude results become the `Latitude`/`Longitude` columns),
    the census fetch, and finally the two file writes.  The census rows are
    joined to county/place names between the census fetch and the writes,
    as the `FileContent.census (censusRecords w)` payload of the write shows. -/
theorem process_data_stage_order (w : World) (h : colsOK w = true) :
    (process_data w).1 =
      [Event.fetchToken, Event.fetchProviders] ++
        (addresses w).map Event.geocodeCall ++
        [Event.censusFetch STATE_FIPS (censusRequestParams STATE_FIPS),
         Event.writeFile (provFileName w), Event.writeFile (censFileName w)] := by
  unfold colsOK at h
  simp only [process_data]
  rw [if_pos h]

/-- Witness for C1: the pipeline trace of the concrete run `w0`. -/
theorem process_data_stage_order_witness :
    (process_data w0).1 =
      [Event.fetchToken, Event.fetchProviders] ++
        (addresses w0).map Event.geocodeCall ++
        [Event.censusFetch STATE_FIPS (censusRequestParams STATE_FIPS),
         Event.writeFile (provFileName w0), Event.writeFile (censFileName w0)] :=
  process_data_stage_order w0 (by decide)

/-- C10: when the fetched provider records are missing one of the required
    columns `AddressLine1`, `City`, `ZipCode`, `process_data` raises a
    `ValueError` naming the missing columns; its trace contains no
    `geocodeCall` and no `writeFile` event, so this happens before any
    geocoding and before any output file is written. -/
theorem missing_columns_value_error (w : World) (h : colsOK w = false) :
    process_data w =
      ([Event.fetchToken, Event.fetchProviders],
       Except.error (PyErr.valueError
         (required_columns.filter fun c => ¬ (dfColumns w.providers).contains c))) := by
  unfold colsOK at h
  simp only [process_data]
  rw [if_neg (fun hc => absurd (h ▸ hc) (by decide))]

/-- Witness for C10: the run `wBad` is missing `City` and `ZipCode` and
    raises the `ValueError` naming exactly those two columns. -/
theorem missing_columns_value_error_witness :
    process_data wBad =
      ([Event.fetchToken, Event.fetchProviders],
       Except.error (PyErr.valueError
         (required_columns.filter fun c => ¬ (dfColumns wBad.providers).contains c))) :=
  missing_columns_value_error wBad (by decide)

/-- C7: every successful run writes exactly two output files, the enriched
    provider data and the processed census data, and both names carry the
    single `strftime` timestamp taken once (the write events follow the
    timestamped names in the trace, after both names are built). -/
theorem two_timestamped_outputs (w : World) (h : colsOK w = true) :
    (process_data w).2 = Except.ok
      [⟨"processed_providers_" ++ w.timestamp ++ ".csv",
        FileContent.providers (providerRows w)⟩,
       ⟨"processed_census_" ++ w.timestamp ++ ".csv",
        FileContent.census (censusRecords w)⟩] := by
  unfold colsOK at h
  simp only [process_data, provFileName, censFileName]
  rw [if_pos h]

/-- Witness for C7: the two files written by the concrete run `w0`. -/
theorem two_timestamped_outputs_witness :
    (process_data w0).2 = Except.ok
      [⟨"processed_providers_" ++ w0.timestamp ++ ".csv",
        FileContent.providers (providerRows w0)⟩,
       ⟨"processed_census_" ++ w0.timestamp ++ ".csv",
        FileContent.census (censusRecords w0)⟩] :=
  two_timestamped_outputs w0 (by decide)

/-- C5: census statistics are fetched for a fixed geography independent of all
    inputs: the census request of every successful run carries state FIPS `26`
    (Michigan), the fixed age-group variable list, and `county:*`; and on a
    200 response with decodable JSON the fetch returns the rows with the
    header row removed. -/
theorem census_fixed_geography (w : World) (h : colsOK w = true) :
    Event.censusFetch STATE_FIPS (censusRequestParams STATE_FIPS) ∈ (process_data w).1 ∧
    STATE_FIPS = "26" ∧
    censusRequestParams STATE_FIPS =
      { getVars := "B01001_003E,B01001_027E,B01001_004E,B01001_028E,B01001_005E,B01001_006E,B01001_029E,B01001_030E"
        forClause := "county:*"
        inClause := "state:26" } ∧
    (∀ (resp : CensusResponse) (rows : List (List String)),
      resp.status_code = 200 → resp.body = some rows →
      (fetch_census_data STATE_FIPS resp).1 = some (rows.drop 1)) := by
  refine ⟨?_, by decide, by decide, ?_⟩
  · rw [process_data_stage_order w h]
    simp
  · intro resp rows h200 hbody
    simp [fetch_census_data, h200, hbody]

/-- Witness for C5: the fixed-geography facts on the concrete run `w0`. -/
theorem census_fixed_geography_witness :
    Event.censusFetch STATE_FIPS (censusRequestParams STATE_FIPS) ∈ (process_data w0).1 ∧
    STATE_FIPS = "26" ∧
    censusRequestParams STATE_FIPS =
      { getVars := "B01001_003E,B01001_027E,B01001_004E,B01001_028E,B01001_005E,B01001_006E,B01001_029E,B01001_030E"
        forClause := "county:*"
        inClause := "state:26" } ∧
    (∀ (resp : CensusResponse) (rows : List (List String)),
      resp.status_code = 200 → resp.body = some rows →
      (fetch_census_data STATE_FIPS resp).1 = some (rows.drop 1)) :=
  census_fixed_geography w0 (by decide)

/-- C6: when the census fetch fails (non-200 status or undecodable JSON), it
    logs the error line to the console and returns `None` instead of raising,
    and `process_data` still completes, writing a census output file with no
    rows. -/
theorem census_failure_continues (w : World) (hcols : colsOK w = true)
    (hfail : w.census.status_code ≠ 200 ∨ w.census.body = none) :
    (fetch_census_data STATE_FIPS w.census).1 = none ∧
    ((fetch_census_data STATE_FIPS w.census).2 =
       ["Fetching data for all counties in state " ++ STATE_FIPS ++ "...",
        "Error: Received status code " ++ toString w.census.status_code] ∨
     (fetch_census_data STATE_FIPS w.census).2 =
       ["Fetching data for all counties in state " ++ STATE_FIPS ++ "...",
        "Error decoding JSON: " ++ w.census.text]) ∧
    (process_data w).2 = Except.ok
      [⟨provFileName w, FileContent.providers (providerRows w)⟩,
       ⟨censFileName w, FileContent.census []⟩] := by
  have hnone : (fetch_census_data STATE_FIPS w.census).1 = none ∧
      ((fetch_census_data STATE_FIPS w.census).2 =
        ["Fetching data for all counties in state " ++ STATE_FIPS ++ "...",
         "Error: Received status code " ++ toString w.census.status_code] ∨
       (fetch_census_data STATE_FIPS w.census).2 =
        ["Fetching data for all counties in state " ++ STATE_FIPS ++ "...",
         "Error decoding JSON: " ++ w.census.text]) := by
    by_cases h200 : w.census.status_code = 200
    · have hbody : w.census.body = none := by
        rcases hfail with hc | hb
        · exact absurd h200 hc
        · exact hb
      refine ⟨?_, Or.inr ?_⟩ <;> simp [fetch_census_data, h200, hbody]
    · refine ⟨?_, Or.inl ?_⟩ <;> simp [fetch_census_data, h200]
  refine ⟨hnone.1, hnone.2, ?_⟩
  have hrecs : censusRecords w = [] := by
    unfold censusRecords
    rw [hnone.1]
  unfold colsOK at hcols
  simp only [process_data, hrecs]
  rw [if_pos hcols]

/-- Witness for C6: the run `wCens`, whose census fetch returns HTTP 500,
    still writes both files, the census one empty. -/
theorem census_failure_continues_witness :
    (fetch_census_data STATE_FIPS wCens.census).1 = none ∧
    ((fetch_census_data STATE_FIPS wCens.census).2 =
       ["Fetching data for all counties in state " ++ STATE_FIPS ++ "...",
        "Error: Received status code " ++ toString wCens.census.status_code] ∨
     (fetch_census_data STATE_FIPS wCens.census).2 =
       ["Fetching data for all counties in state " ++ STATE_FIPS ++ "...",
        "Error decoding JSON: " ++ wCens.census.text]) ∧
    (process_data wCens).2 = Except.ok
      [⟨provFileName wCens, FileContent.providers (providerRows wCens)⟩,
       ⟨censFileName wCens, FileContent.census []⟩] :=
  census_failure_continues wCens (by decide) (by decide)

/-- Each loop iteration of `geocode_address` prints exactly one console line,
    so the printed lines never exceed the attempts available. -/
theorem geocodeRun_length_le (address : String) (l : List GeoAttempt) :
    (geocodeRun address l).2.length ≤ l.length := by
  induction l with
  | nil => simp [geocodeRun]
  | cons a rest ih =>
    cases a with
    | exn msg => simpa [geocodeRun] using Nat.succ_le_succ ih
    | resp status_code body =>
      simp only [geocodeRun]
      split
      · cases hres : body.results with
        | nil => simpa [hres] using Nat.succ_le_succ ih
        | cons loc tl =>
          simp only [hres]
          split
          · simp
          · simpa using Nat.succ_le_succ ih
      · simpa using Nat.succ_le_succ ih

/-- A failing attempt at the head of the loop logs one line and falls through
    to the remaining attempts. -/
theorem geocodeRun_cons_fail (address : String) (a : GeoAttempt)
    (l : List GeoAttempt) (h : attemptFails a = true) :
    (geocodeRun address (a :: l)).1 = (geocodeRun address l).1 ∧
    (geocodeRun address (a :: l)).2.length = (geocodeRun address l).2.length + 1 := by
  cases a with
  | exn msg => simp [geocodeRun]
  | resp status_code body =>
    simp only [attemptFails, Bool.not_eq_eq_eq_not, Bool.not_true, Bool.and_eq_false_imp] at h
    simp only [geocodeRun]
    split
    · rename_i h200
      cases hres : body.results with
      | nil => simp
      | cons loc tl =>
        simp only [hres]
        have hstat : ¬ body.status = "OK" := by
          intro hOK
          have := h (by simp [h200, hOK])
          simp [hres] at this
        rw [if_neg hstat]
        simp
    · simp

/-- When all attempts a run will see fail, `geocode_address`'s loop returns
    `(None, None)` and logs one line per attempt. -/
theorem geocodeRun_all_fail (address : String) (l : List GeoAttempt)
    (h : ∀ a ∈ l, attemptFails a = true) :
    (geocodeRun address l).1 = (none, none) ∧
    (geocodeRun address l).2.length = l.length := by
  induction l with
  | nil => simp [geocodeRun]
  | cons a rest ih =>
    have hhead := geocodeRun_cons_fail address a rest (h a (by simp))
    have htail := ih fun b hb => h b (by simp [hb])
    refine ⟨hhead.1.trans htail.1, ?_⟩
    rw [hhead.2, htail.2]
    simp

/-- C3: `geocode_address` attempts the HTTP request at most 3 times (one
    console line is printed per attempt made), and when all three attempts
    fail — non-200 status, non-`OK` geocoder status, empty results, or a
    request exception — it returns `(None, None)` without raising (every
    failure mode is a caught, logged branch of the embedded loop), with one
    failure line logged per attempt. -/
theorem geocode_address_retry_bound (address : String) (att : Nat → GeoAttempt) :
    (geocode_address address att).2.length ≤ 3 ∧
    ((∀ i, i < 3 → attemptFails (att i) = true) →
      (geocode_address address att).1 = (none, none) ∧
      (geocode_address address att).2.length = 3) := by
  constructor
  · exact geocodeRun_length_le address [att 0, att 1, att 2]
  · intro hfail
    have h : ∀ a ∈ [att 0, att 1, att 2], attemptFails a = true := by
      intro a ha
      simp only [List.mem_cons, List.not_mem_nil, or_false] at ha
      rcases ha with rfl | rfl | rfl
      · exact hfail 0 (by decide)
      · exact hfail 1 (by decide)
      · exact hfail 2 (by decide)
    exact geocodeRun_all_fail address [att 0, att 1, att 2] h

/-- Witness for C3: an address whose three attempts all raise; the result is
    `(None, None)` with three logged failures. -/
theorem geocode_address_retry_bound_witness :
    (geocode_address "1 Main St, Flint, Michigan 48502" (fun _ => GeoAttempt.exn "timeout")).2.length ≤ 3 ∧
    ((∀ i, i < 3 → attemptFails ((fun _ => GeoAttempt.exn "timeout") i) = true) →
      (geocode_address "1 Main St, Flint, Michigan 48502" (fun _ => GeoAttempt.exn "timeout")).1 = (none, none) ∧
      (geocode_address "1 Main St, Flint, Michigan 48502" (fun _ => GeoAttempt.exn "timeout")).2.length = 3) :=
  geocode_address_retry_bound "1 Main St, Flint, Michigan 48502" (fun _ => GeoAttempt.exn "timeout")

/-- A successful attempt at the head of the loop returns the first result's
    coordinates at once. -/
theorem geocodeRun_cons_success (address : String) (loc : GeoLoc)
    (tl : List GeoLoc) (l : List GeoAttempt) :
    (geocodeRun address (GeoAttempt.resp 200 ⟨"OK", loc :: tl⟩ :: l)).1 =
      (some loc.lat, some loc.lng) := by
  simp [geocodeRun]

/-- C4: when an attempt succeeds (HTTP 200, geocoder status `OK`, non-empty
    results) after `k` failing attempts within the retry budget,
    `geocode_address` returns the `(lat, lng)` pair of the first result's
    geometry location. -/
theorem geocode_address_success (address : String) (att : Nat → GeoAttempt)
    (k : Nat) (hk : k < 3) (hfail : ∀ i, i < k → attemptFails (att i) = true)
    (loc : GeoLoc) (tl : List GeoLoc)
    (hsucc : att k = GeoAttempt.resp 200 ⟨"OK", loc :: tl⟩) :
    (geocode_address address att).1 = (some loc.lat, some loc.lng) := by
  unfold geocode_address
  interval_cases k
  · rw [hsucc]
    exact geocodeRun_cons_success address loc tl [att 1, att 2]
  · rw [(geocodeRun_cons_fail address (att 0) [att 1, att 2] (hfail 0 (by decide))).1,
      hsucc]
    exact geocodeRun_cons_success address loc tl [att 2]
  · rw [(geocodeRun_cons_fail address (att 0) [att 1, att 2] (hfail 0 (by decide))).1,
      (geocodeRun_cons_fail address (att 1) [att 2] (hfail 1 (by decide))).1, hsucc]
    exact geocodeRun_cons_success address loc tl []

/-- Witness for C4: the first attempt raises, the second succeeds with a
    single result at (43, -83); the returned pair is that location. -/
theorem geocode_address_success_witness :
    (geocode_address "1 Main St, Flint, Michigan 48502"
      (fun i => if i = 0 then GeoAttempt.exn "timeout"
                else GeoAttempt.resp 200 ⟨"OK", [⟨43, -83⟩]⟩)).1 =
      (some (⟨43, -83⟩ : GeoLoc).lat, some (⟨43, -83⟩ : GeoLoc).lng) :=
  geocode_address_success "1 Main St, Flint, Michigan 48502"
    (fun i => if i = 0 then GeoAttempt.exn "timeout"
              else GeoAttempt.resp 200 ⟨"OK", [⟨43, -83⟩]⟩)
    1 (by decide) (by decide) ⟨43, -83⟩ [] (by decide)

/-- The county lookup is the first table entry matching state and county
    code, with a default when none matches. -/
theorem get_county_name_eq_find (s c : String) (fips : List FipsEntry) :
    get_county_name_from_fips s c fips =
      match fips.find? (fun en => en.State == s && en.County_Code == c) with
      | some en => en.County_Name
      | none => "Unknown County" := by
  induction fips with
  | nil => rfl
  | cons en rest ih =>
    simp only [get_county_name_from_fips]
    by_cases h : en.State = s ∧ en.County_Code = c
    · have hb : (en.State == s && en.County_Code == c) = true := by
        simp [h.1, h.2]
      rw [if_pos h,
        List.find?_cons_of_pos (p := fun en => en.State == s && en.County_Code == c) rest hb]
    · have hb : ¬ (en.State == s && en.County_Code == c) = true := by
        simpa using h
      rw [if_neg h,
        List.find?_cons_of_neg (p := fun en => en.State == s && en.County_Code == c) rest hb,
        ih]

/-- The place lookup is the first table entry matching state and place code,
    with a default when none matches. -/
theorem get_place_name_eq_find (s p : String) (fips : List FipsEntry) :
    get_place_name_from_fips s p fips =
      match fips.find? (fun en => en.State == s && en.Place_Code == p) with
      | some en => en.Place_Name
      | none => "Unknown City/Town" := by
  induction fips with
  | nil => rfl
  | cons en rest ih =>
    simp only [get_place_name_from_fips]
    by_cases h : en.State = s ∧ en.Place_Code = p
    · have hb : (en.State == s && en.Place_Code == p) = true := by
        simp [h.1, h.2]
      rw [if_pos h,
        List.find?_cons_of_pos (p := fun en => en.State == s && en.Place_Code == p) rest hb]
    · have hb : ¬ (en.State == s && en.Place_Code == p) = true := by
        simpa using h
      rw [if_neg h,
        List.find?_cons_of_neg (p := fun en => en.State == s && en.Place_Code == p) rest hb,
        ih]

/-- A failing access among the first eight cells sends the whole `try` block
    to the `except` handler. -/
theorem cells8_eq_none (data : List String) (i : Nat) (hi : i < 8)
    (hnone : cell? data i = none) : cells8? data = none := by
  interval_cases i <;> simp [cells8?, hnone]

/-- The static FIPS table used by the C2 counterexample. -/
def cexFips : List FipsEntry :=
  [⟨"26", "049", "Genesee County", "29000", "Flint city"⟩]

/-- The census row of the C2 counterexample: its county code `049` and place
    code `29000` both match the table, but its first field is not an
    integer. -/
def cexRow : List String :=
  ["x", "2", "3", "4", "5", "6", "7", "8", "049", "29000"]

/-- C2 counterexample: `cexRow` carries county code `049` (`data[-2]`) and
    place code `29000` (`data[-1]`), and the table maps them to
    `Genesee County` / `Flint city`; yet `process_census_data_with_names`
    returns `Unknown County` / `Unknown City/Town` for it, because its first
    field `"x"` raises `ValueError` before any lookup happens.  This refutes
    the claim that every row is joined by the table lookup of its codes. -/
theorem census_join_counterexample :
    cexRow.getD (cexRow.length - 2) "" = "049" ∧
    cexRow.getD (cexRow.length - 1) "" = "29000" ∧
    get_county_name_from_fips STATE_FIPS "049" cexFips = "Genesee County" ∧
    get_place_name_from_fips STATE_FIPS "29000" cexFips = "Flint city" ∧
    process_census_data_with_names cexRow cexFips =
      ("Unknown County", "Unknown City/Town", 0, 0, 0) := by
  decide

/-- C2 (amended): for every census row whose first eight fields are all
    present and parse as integers, `process_census_data_with_names` joins the
    row to the county name of the first table entry whose state is `26` and
    whose county code matches `data[-2]`, and to the place name of the first
    entry whose state is `26` and whose place code matches `data[-1]`, with
    `Unknown County` / `Unknown City/Town` when no entry matches; a row
    failing any of those eight accesses yields the `except` handler's
    defaults instead. -/
theorem census_join_names (data : List String) (fips : List FipsEntry) :
    (∀ a b c d e f g h,
      cell? data 0 = some a → cell? data 1 = some b → cell? data 2 = some c →
      cell? data 3 = some d → cell? data 4 = some e → cell? data 5 = some f →
      cell? data 6 = some g → cell? data 7 = some h →
      process_census_data_with_names data fips =
        ((match fips.find? (fun en => en.State == STATE_FIPS &&
              en.County_Code == data.getD (data.length - 2) "") with
          | some en => en.County_Name
          | none => "Unknown County"),
         (match fips.find? (fun en => en.State == STATE_FIPS &&
              en.Place_Code == data.getD (data.length - 1) "") with
          | some en => en.Place_Name
          | none => "Unknown City/Town"),
         a + b, c + d, e + f + g + h)) ∧
    ((∃ i, i < 8 ∧ cell? data i = none) →
      process_census_data_with_names data fips =
        ("Unknown County", "Unknown City/Town", 0, 0, 0)) := by
  constructor
  · intro a b c d e f g h h0 h1 h2 h3 h4 h5 h6 h7
    have hc : cells8? data = some (a, b, c, d, e, f, g, h) := by
      simp [cells8?, h0, h1, h2, h3, h4, h5, h6, h7]
    simp only [process_census_data_with_names, hc]
    rw [get_county_name_eq_find, get_place_name_eq_find]
  · rintro ⟨i, hi, hnone⟩
    simp only [process_census_data_with_names, cells8_eq_none data i hi hnone]

/-- Witness for C2 (amended): a fully numeric row whose codes match the
    table entry, joined to `Genesee County` / `Flint city`; and the
    counterexample row, which falls to the defaults. -/
theorem census_join_names_witness :
    process_census_data_with_names
        ["1", "2", "3", "4", "5", "6", "7", "8", "049", "29000"] cexFips =
      ((match cexFips.find? (fun en => en.State == STATE_FIPS &&
            en.County_Code == (["1", "2", "3", "4", "5", "6", "7", "8", "049", "29000"] :
              List String).getD ((["1", "2", "3", "4", "5", "6", "7", "8", "049",
              "29000"] : List String).length - 2) "") with
        | some en => en.County_Name
        | none => "Unknown County"),
       (match cexFips.find? (fun en => en.State == STATE_FIPS &&
            en.Place_Code == (["1", "2", "3", "4", "5", "6", "7", "8", "049", "29000"] :
              List String).getD ((["1", "2", "3", "4", "5", "6", "7", "8", "049",
              "29000"] : List String).length - 1) "") with
        | some en => en.Place_Name
        | none => "Unknown City/Town"),
       (1 : Int) + 2, (3 : Int) + 4, (5 : Int) + 6 + 7 + 8) ∧
    process_census_data_with_names cexRow cexFips =
      ("Unknown County", "Unknown City/Town", 0, 0, 0) :=
  ⟨(census_join_names ["1", "2", "3", "4", "5", "6", "7", "8", "049", "29000"] cexFips).1
      1 2 3 4 5 6 7 8 (by decide) (by decide) (by decide) (by decide)
      (by decide) (by decide) (by decide) (by decide),
   (census_join_names cexRow cexFips).2 ⟨0, by decide, by decide⟩⟩

/-- Pointwise description of `List.zip`: if both lists hold values at `i`,
    the zip holds their pair at `i`. -/
theorem zip_get_some {α β : Type} (l1 : List α) (l2 : List β) (i : Nat)
    (x : α) (y : β) (h1 : l1[i]? = some x) (h2 : l2[i]? = some y) :
    (l1.zip l2)[i]? = some (x, y) := by
  rw [← List.get?_eq_getElem?] at h1 h2 ⊢
  rw [List.get?_zip_eq_some]
  exact ⟨h1, h2⟩

/-- C9: `geocode_addresses_concurrently` yields one result per address in
    input order (the worker pool's `executor.map` is order-preserving), so
    the `Latitude`/`Longitude` values attached at row `i` of the provider
    DataFrame are the geocoding result of the `i`-th `Full Address`. -/
theorem geocode_results_aligned (w : World) (i : Nat) (r : Row)
    (h : w.providers[i]? = some r) :
    (geoResults w).length = w.providers.length ∧
    (geoResults w)[i]? = some (geocode_address (full_address r) (w.geo i)).1 ∧
    (providerRows w)[i]? = some
      ⟨r, full_address r,
       (geocode_address (full_address r) (w.geo i)).1.1,
       (geocode_address (full_address r) (w.geo i)).1.2⟩ := by
  have haddr : (addresses w)[i]? = some (full_address r) := by
    rw [addresses, List.getElem?_map, h]
    rfl
  have hres : (geoResults w)[i]? =
      some (geocode_address (full_address r) (w.geo i)).1 := by
    rw [geoResults, geocode_addresses_concurrently, List.getElem?_map,
      List.getElem?_map, List.getElem?_enum, haddr]
    rfl
  have hlen : (geoResults w).length = w.providers.length := by
    simp [geoResults, geocode_addresses_concurrently, addresses]
  refine ⟨hlen, hres, ?_⟩
  have hlat : (latitudes w)[i]? =
      some (geocode_address (full_address r) (w.geo i)).1.1 := by
    rw [latitudes, List.getElem?_map, hres]
    rfl
  have hlng : (longitudes w)[i]? =
      some (geocode_address (full_address r) (w.geo i)).1.2 := by
    rw [longitudes, List.getElem?_map, hres]
    rfl
  have hz1 : ((w.providers.zip (addresses w)))[i]? = some (r, full_address r) :=
    zip_get_some _ _ i _ _ h haddr
  have hz2 : (((latitudes w).zip (longitudes w)))[i]? =
      some ((geocode_address (full_address r) (w.geo i)).1.1,
            (geocode_address (full_address r) (w.geo i)).1.2) :=
    zip_get_some _ _ i _ _ hlat hlng
  rw [providerRows, List.getElem?_map, zip_get_some _ _ i _ _ hz1 hz2]
  rfl

/-- Witness for C9: in the run `w0`, row 0's attached coordinates are the
    geocoding result of row 0's full address. -/
theorem geocode_results_aligned_witness :
    (geoResults w0).length = w0.providers.length ∧
    (geoResults w0)[0]? = some (geocode_address
      (full_address [("AddressLine1", "1  Main St"), ("City", "Flint"),
        ("ZipCode", "48502")]) (w0.geo 0)).1 ∧
    (providerRows w0)[0]? = some
      ⟨[("AddressLine1", "1  Main St"), ("City", "Flint"), ("ZipCode", "48502")],
       full_address [("AddressLine1", "1  Main St"), ("City", "Flint"),
         ("ZipCode", "48502")],
       (geocode_address (full_address [("AddressLine1", "1  Main St"),
         ("City", "Flint"), ("ZipCode", "48502")]) (w0.geo 0)).1.1,
       (geocode_address (full_address [("AddressLine1", "1  Main St"),
         ("City", "Flint"), ("ZipCode", "48502")]) (w0.geo 0)).1.2⟩ :=
  geocode_results_aligned w0 0
    [("AddressLine1", "1  Main St"), ("City", "Flint"), ("ZipCode", "48502")]
    (by decide)

end Lake2
